import Mathlib

/-!
Shallow embedding of the ado-interface gateway (FastAPI + SQLAlchemy service
translating between a simplified REST surface and the Azure DevOps work-item
API), together with theorems settling the specification claims.

Sources embedded:
  - app/config.py    : system-wide default configuration values
  - app/utils.py     : password/fingerprint utilities and transform_work_item
  - app/azure_devops.py : get_auth_headers (Basic auth header construction)
  - app/crud.py      : get_user_by_pat, create_user
  - app/auth.py      : get_api_key
  - app/main.py      : get_config, update_config, list_work_items,
                       update_work_item (patch-merge engine)

Python strings are modelled as Lean `String`; the Python string methods the
code relies on ( str.split, str.strip, str.lower, "...".join ) are embedded
as structural functions over the character list so that every definition
evaluates by kernel reduction.  Stateful database access is modelled by
explicit state passing (`Option UserConfig` for the 1:1 per-user
configuration row).  Fallible endpoint handlers return `Except HTTPError`
mirroring FastAPI's `raise HTTPException(status_code, detail)`.
The bcrypt/SHA-256 primitives of app/utils.py are opaque capabilities and are
passed as function parameters (`hash`, `verify`, `fingerprint`).
-/

namespace AdoInterface

/-! ## Python string primitives (char-level, structural) -/

/-- ASCII whitespace recognised by Python's `str.strip()` (the subset that
occurs in tag strings). -/
def isPyWs (c : Char) : Bool := c == ' ' || c == '\t' || c == '\n' || c == '\r'

/-- Python `str.strip()` on the character list: drop leading and trailing
whitespace. -/
def trimChars (cs : List Char) : List Char :=
  ((cs.dropWhile isPyWs).reverse.dropWhile isPyWs).reverse

/-- Python `str.split(sep)` for a one-character separator, on the character
list: `""` splits to `[""]`, adjacent separators produce empty pieces. -/
def splitOnChar (sep : Char) : List Char → List (List Char)
  | [] => [[]]
  | c :: rest =>
    if c = sep then [] :: splitOnChar sep rest
    else
      match splitOnChar sep rest with
      | [] => [[c]]
      | g :: gs => (c :: g) :: gs

/-- Python `str.strip()`. -/
def pyStrip (s : String) : String := String.mk (trimChars s.data)

/-- Python `str.split(sep)` for a one-character separator. -/
def pySplit (sep : Char) (s : String) : List String :=
  (splitOnChar sep s.data).map (fun cs => String.mk cs)

/-- Python `str.lower()` (ASCII case folding, as used on tag entries). -/
def pyLower (s : String) : String := String.mk (s.data.map Char.toLower)

/-- Python `sep.join(parts)`. -/
def pyJoin (sep : String) : List String → String
  | [] => ""
  | [x] => x
  | x :: y :: rest => x ++ sep ++ pyJoin sep (y :: rest)

/-- Python truthiness of an `Optional[str]`: `None` and `""` are falsy. -/
def pyTruthy : Option String → Bool
  | none => false
  | some s => !(s == "")

/-! ## app/config.py : system-wide defaults -/

/-- config.py: `AZURE_DEVOPS_ORG = os.getenv("AZURE_DEVOPS_ORG", "your-org")`. -/
def AZURE_DEVOPS_ORG : String := "your-org"

/-- config.py: default upstream project. -/
def AZURE_DEVOPS_PROJECT : String := "your-project"

/-- config.py: default upstream personal access token. -/
def AZURE_DEVOPS_PAT : String := "your-pat"

/-- config.py: default API version string. -/
def API_VERSION : String := "7.1-preview.7"

/-! ## app/azure_devops.py : Basic auth header -/

/-- The RFC 4648 base64 alphabet. -/
def base64Alphabet : List Char :=
  [ 'A','B','C','D','E','F','G','H','I','J','K','L','M',
    'N','O','P','Q','R','S','T','U','V','W','X','Y','Z',
    'a','b','c','d','e','f','g','h','i','j','k','l','m',
    'n','o','p','q','r','s','t','u','v','w','x','y','z',
    '0','1','2','3','4','5','6','7','8','9','+','/' ]

/-- Character of the base64 alphabet at a 6-bit index. -/
def b64CharAt (n : Nat) : Char := base64Alphabet.getD n 'A'

/-- Standard base64 encoding of a byte list, with `=` padding
(the behaviour of Python's `base64.b64encode`). -/
def base64EncodeBytes : List Nat → List Char
  | [] => []
  | [b1] =>
    [b64CharAt (b1 / 4), b64CharAt (b1 % 4 * 16), '=', '=']
  | [b1, b2] =>
    [b64CharAt (b1 / 4), b64CharAt (b1 % 4 * 16 + b2 / 16),
     b64CharAt (b2 % 16 * 4), '=']
  | b1 :: b2 :: b3 :: rest =>
    b64CharAt (b1 / 4) :: b64CharAt (b1 % 4 * 16 + b2 / 16) ::
    b64CharAt (b2 % 16 * 4 + b3 / 64) :: b64CharAt (b3 % 64) ::
    base64EncodeBytes rest

/-- UTF-8 bytes of an ASCII string (tokens in this system are ASCII, one
byte per character). -/
def strBytes (s : String) : List Nat := s.data.map Char.toNat

/-- `base64.b64encode(s.encode("utf-8")).decode("utf-8")`. -/
def b64encode (s : String) : String := String.mk (base64EncodeBytes (strBytes s))

/-- azure_devops.py `get_auth_headers(pat)`: the Authorization header value.
`token = f":{pat or AZURE_DEVOPS_PAT}"` — a falsy `pat` (absent header or
empty string) falls back to the module-level default `AZURE_DEVOPS_PAT`;
the header is `"Basic " + base64(token)`. -/
def get_auth_headers (pat : Option String) : String :=
  let token := ":" ++ (match pat with
    | some p => if p == "" then AZURE_DEVOPS_PAT else p
    | none => AZURE_DEVOPS_PAT)
  "Basic " ++ b64encode token

/-! ## Error model : FastAPI HTTPException -/

/-- `HTTPException(status_code, detail)` as raised by the handlers. -/
structure HTTPError where
  status : Nat
  detail : String
deriving DecidableEq, Repr

/-! ## app/models.py + app/schemas.py : configuration records -/

/-- models.py `UserConfig` row (the per-user 1:1 configuration record). -/
structure UserConfig where
  azure_devops_org : String
  azure_devops_project : String
  azure_devops_pat : String
  api_version : String
deriving DecidableEq, Repr

/-- schemas.py `ConfigUpdate`: the partial update payload, all fields
optional. -/
structure ConfigUpdate where
  azure_devops_org : Option String
  azure_devops_project : Option String
  azure_devops_pat : Option String
  api_version : Option String
deriving DecidableEq, Repr

/-- schemas.py `Config`: the externally-facing configuration read payload.
It has exactly three fields; the access token is deliberately absent. -/
structure ConfigOut where
  azure_devops_org : String
  azure_devops_project : String
  api_version : String
deriving DecidableEq, Repr

/-- The default configuration record created by `get_config` for a user with
no row (main.py lines 86-92). -/
def defaultUserConfig : UserConfig :=
  { azure_devops_org := AZURE_DEVOPS_ORG
    azure_devops_project := AZURE_DEVOPS_PROJECT
    azure_devops_pat := AZURE_DEVOPS_PAT
    api_version := API_VERSION }

/-- The read payload built by `get_config` / `update_config` (main.py lines
97-101 and 152-156): org, project and api_version only. -/
def configOut (c : UserConfig) : ConfigOut :=
  { azure_devops_org := c.azure_devops_org
    azure_devops_project := c.azure_devops_project
    api_version := c.api_version }

/-- main.py `get_config`: the caller's configuration row is the state.
A missing row is auto-created from the system defaults and persisted; the
returned payload never contains the token.  Returns (payload, new state). -/
def get_config : Option UserConfig → ConfigOut × UserConfig
  | none => (configOut defaultUserConfig, defaultUserConfig)
  | some c => (configOut c, c)

/-- main.py `update_config`: on a missing row, all four payload fields must
be non-null or the handler raises 400 and creates nothing; on an existing
row, exactly the non-null fields are applied.  Returns the handler outcome
and the resulting state. -/
def update_config (store : Option UserConfig) (u : ConfigUpdate) :
    Except HTTPError ConfigOut × Option UserConfig :=
  match store with
  | none =>
    match u.azure_devops_org, u.azure_devops_project,
          u.azure_devops_pat, u.api_version with
    | some o, some p, some t, some v =>
      let c : UserConfig :=
        { azure_devops_org := o, azure_devops_project := p
          azure_devops_pat := t, api_version := v }
      (.ok (configOut c), some c)
    | _, _, _, _ =>
      (.error ⟨400, "All required fields must be provided to create a new configuration."⟩,
       none)
  | some c =>
    let c' : UserConfig :=
      { azure_devops_org := (u.azure_devops_org).getD c.azure_devops_org
        azure_devops_project := (u.azure_devops_project).getD c.azure_devops_project
        azure_devops_pat := (u.azure_devops_pat).getD c.azure_devops_pat
        api_version := (u.api_version).getD c.api_version }
    (.ok (configOut c'), some c')

/-! ## app/models.py + app/crud.py + app/auth.py : accounts and PAT lookup -/

/-- models.py `UserModel`: the mapped attributes are exactly `id`,
`username`, `full_name`, `hashed_password`, `disabled`, `created_at` and
the `config` relationship — models.py maps no `pat_fingerprint` column,
although crud.py references one.  Only the fields read by the embedded
operations are carried. -/
structure UserModel where
  id : Nat
  username : String
  hashed_password : String
deriving DecidableEq, Repr

/-- The attribute names mapped on models.py `UserModel` (its columns plus
the `config` relationship), the names accepted by class attribute access
and by the declarative constructor. -/
def userModelAttrNames : List String :=
  ["id", "username", "full_name", "hashed_password", "disabled",
   "created_at", "config"]

/-- A Python exception escaping a handler (surfaced by the framework as an
HTTP 500, observably distinct from any `HTTPException`). -/
inductive PyError where
  | attributeError (msg : String)
  | typeError (msg : String)
deriving DecidableEq, Repr

/-- Python class attribute access `UserModel.<name>`, as evaluated when a
query filter is built: a name that maps no attribute raises
`AttributeError`. -/
def userModelClassAttr (name : String) : Except PyError String :=
  if name ∈ userModelAttrNames then .ok name
  else .error (.attributeError
    ("type object UserModel has no attribute " ++ name))

/-- SQLAlchemy declarative constructor `UserModel(**kwargs)`: a keyword
naming no mapped attribute raises `TypeError`; otherwise the row is built
from the keyword values. -/
def userModelCtor (id : Nat) (kwargs : List (String × String)) :
    Except PyError UserModel :=
  match kwargs.find? (fun kv => !userModelAttrNames.contains kv.1) with
  | some kv => .error (.typeError
      (kv.1 ++ " is an invalid keyword argument for UserModel"))
  | none =>
    .ok { id := id
          username := (kwargs.lookup "username").getD ""
          hashed_password := (kwargs.lookup "hashed_password").getD "" }

/-- crud.py `create_user`: hashes the password, computes its fingerprint
from the same plaintext, and calls `UserModel(username=..., full_name=...,
hashed_password=..., pat_fingerprint=...)`.  `hash` and `fingerprint` stand
for utils.py `get_password_hash` (bcrypt) and `compute_pat_fingerprint`
(SHA-256 hex), opaque cryptographic capabilities. -/
def create_user (hash fingerprint : String → String) (id : Nat)
    (username full_name password : String) : Except PyError UserModel :=
  let hashed_password := hash password
  let fp := fingerprint password
  userModelCtor id
    [("username", username), ("full_name", full_name),
     ("hashed_password", hashed_password), ("pat_fingerprint", fp)]

/-- crud.py `get_user_by_pat`: computes the fingerprint of the presented
PAT, then builds the query filter `UserModel.pat_fingerprint == fingerprint`
— a class attribute access evaluated before any row is consulted.  With the
attributes mapped by models.py that access always raises, so the candidate
lookup and the `verify` step (utils.py `verify_password`) are never
reached; the `.ok` branch below is dead code kept for the shape of the
source. -/
def get_user_by_pat (fingerprint : String → String)
    (verify : String → String → Bool)
    (db : List UserModel) (pat : String) :
    Except PyError (Option UserModel) :=
  let _fp := fingerprint pat
  match userModelClassAttr "pat_fingerprint" with
  | .error e => .error e
  | .ok _ => .ok none

/-- auth.py `get_api_key`: a `None` from `get_user_by_pat` becomes the
uniform `401 "Invalid API key"`; an escaping Python exception propagates to
the framework as a crash. -/
def get_api_key (fingerprint : String → String)
    (verify : String → String → Bool)
    (db : List UserModel) (x_pat : String) :
    Except PyError (Except HTTPError UserModel) :=
  match get_user_by_pat fingerprint verify db x_pat with
  | .error e => .error e
  | .ok (some u) => .ok (.ok u)
  | .ok none => .ok (.error ⟨401, "Invalid API key"⟩)

/-! ## app/utils.py : transform_work_item over a JSON value model -/

/-- JSON values as delivered by `response.json()`. -/
inductive Json where
  | null
  | str (s : String)
  | num (n : Int)
  | boolean (b : Bool)
  | arr (elems : List Json)
  | obj (entries : List (String × Json))

/-- Python `d.get(k, default)`: defined only on dicts — a non-dict receiver
is an uncaught `AttributeError`, modelled as `none`. -/
def pyDictGetD (j : Json) (k : String) (d : Json) : Option Json :=
  match j with
  | .obj entries => some ((entries.lookup k).getD d)
  | _ => none

/-- Python `d.get(k)` with no default: `none` (outer) is an uncaught
`AttributeError` on a non-dict receiver; the inner option is the Python
result, `Option.none` standing for Python `None`. -/
def pyDictGet (j : Json) (k : String) : Option (Option Json) :=
  match j with
  | .obj entries => some (entries.lookup k)
  | _ => none

/-- The flattened assignee of the gateway output shape. -/
structure AssignedTo where
  displayName : Option Json
  uniqueName : Option Json
  avatarUrl : Option Json

/-- utils.py `transform_work_item` output shape: the gateway work item.
`Option.none` in a field is Python `None` (JSON null on the wire). -/
structure GatewayWorkItem where
  id : Option Json
  title : Option Json
  description : Option Json
  state : Option Json
  createdDate : Option Json
  assignedTo : AssignedTo
  url : Option Json

/-- utils.py `transform_work_item`: `fields = raw_item.get("fields", {})`,
`assigned_to = fields.get("System.AssignedTo", {})`, then defensive `.get`
projections, with the avatar link read through
`assigned_to.get("_links", {}).get("avatar", {}).get("href")`.
Returns `none` exactly when Python would raise (a `.get` on a non-dict). -/
def transform_work_item (raw : Json) : Option GatewayWorkItem := do
  let fields ← pyDictGetD raw "fields" (.obj [])
  let assigned_to ← pyDictGetD fields "System.AssignedTo" (.obj [])
  let pid ← pyDictGet raw "id"
  let ptitle ← pyDictGet fields "System.Title"
  let pdesc ← pyDictGet fields "System.Description"
  let pstate ← pyDictGet fields "System.State"
  let pcreated ← pyDictGet fields "System.CreatedDate"
  let pdisplay ← pyDictGet assigned_to "displayName"
  let punique ← pyDictGet assigned_to "uniqueName"
  let links ← pyDictGetD assigned_to "_links" (.obj [])
  let avatar ← pyDictGetD links "avatar" (.obj [])
  let phref ← pyDictGet avatar "href"
  let purl ← pyDictGet raw "url"
  some { id := pid, title := ptitle, description := pdesc,
         state := pstate, createdDate := pcreated,
         assignedTo := { displayName := pdisplay, uniqueName := punique,
                         avatarUrl := phref },
         url := purl }

/-! ## app/main.py : update_work_item (patch-merge engine) -/

/-- One JSON-Patch operation of the payload built by the handlers. -/
structure PatchOp where
  op : String
  path : String
  value : String
deriving DecidableEq, Repr

/-- The upstream field bag of the fetched work item
(`current_work_item.get("fields", {})`).  Only string-valued fields are ever
read by the patch-merge engine (`System.Tags`) — membership of the other
keys is all that matters — so values are modelled as raw strings. -/
abbrev WorkItemFields := List (String × String)

/-- main.py line 391: parse the semicolon-separated `System.Tags` string
into trimmed non-empty entries; an empty (falsy) string parses to `[]`. -/
def parse_tags (existing_tags : String) : List String :=
  if existing_tags == "" then []
  else ((pySplit ';' existing_tags).map pyStrip).filter (fun t => !(t == ""))

/-- main.py lines 366-401, the patch-payload construction of
`update_work_item`: a truthy title or description contributes one
`replace`/`add` op depending on key presence in the fetched field bag, and
the `enhanced` tag is appended (joined with `"; "`, op chosen by prior tag
text) unless already present case-insensitively. -/
def build_patch_payload (fields : WorkItemFields)
    (title description : Option String) : List PatchOp :=
  let titleOps : List PatchOp :=
    if pyTruthy title then
      [{ op := if (fields.lookup "System.Title").isSome then "replace" else "add"
         path := "/fields/System.Title"
         value := title.getD "" }]
    else []
  let descOps : List PatchOp :=
    if pyTruthy description then
      [{ op := if (fields.lookup "System.Description").isSome then "replace" else "add"
         path := "/fields/System.Description"
         value := description.getD "" }]
    else []
  let existing_tags := (fields.lookup "System.Tags").getD ""
  let tags_list := parse_tags existing_tags
  let tagOps : List PatchOp :=
    if "enhanced" ∈ tags_list.map pyLower then []
    else
      [{ op := if !(existing_tags == "") then "replace" else "add"
         path := "/fields/System.Tags"
         value := pyJoin "; " (tags_list ++ ["enhanced"]) }]
  titleOps ++ descOps ++ tagOps

/-- The upstream response to the existence-check GET of `update_work_item`:
HTTP status, raw body text, and the parsed `fields` bag (meaningful when the
status is 200). -/
structure GetWorkItemResponse where
  status : Nat
  text : String
  fields : WorkItemFields
deriving DecidableEq, Repr

/-- A generic upstream HTTP response (status and body text). -/
structure UpstreamResponse where
  status : Nat
  text : String
deriving DecidableEq, Repr

/-- main.py `update_work_item`: existence-check GET first — a non-200 GET
aborts with the upstream status and the fixed detail
`"Work item not found or unavailable"`; an empty patch payload aborts with
400; otherwise the PATCH is sent and a non-200 PATCH response is surfaced
with its status and body.  The second component records the PATCH payload
actually sent upstream (`none` = no PATCH issued). -/
def update_work_item (getResp : GetWorkItemResponse)
    (patchResp : UpstreamResponse) (title description : Option String) :
    Except HTTPError String × Option (List PatchOp) :=
  if getResp.status ≠ 200 then
    (.error ⟨getResp.status, "Work item not found or unavailable"⟩, none)
  else
    let patch_payload := build_patch_payload getResp.fields title description
    if patch_payload = [] then
      (.error ⟨400, "No fields provided for update."⟩, none)
    else if patchResp.status ≠ 200 then
      (.error ⟨patchResp.status, patchResp.text⟩, some patch_payload)
    else
      (.ok patchResp.text, some patch_payload)

/-! ## app/main.py : list_work_items -/

/-- The WIQL endpoint URL of main.py line 206: the requested row cap is
passed upstream as the `$top` query parameter, set to `limit`. -/
def wiql_url (org project : String) (limit : Nat) (api_version : String) : String :=
  "https://dev.azure.com/" ++ org ++ "/" ++ project ++
    "/_apis/wit/wiql?$top=" ++ toString limit ++ "&api-version=" ++ api_version

/-- The upstream response to the WIQL query POST: status, body text, and the
ids parsed from `wiql_result["workItems"]`. -/
structure WiqlResult where
  status : Nat
  text : String
  workItemIds : List Nat
deriving DecidableEq, Repr

/-- The upstream response to the details GET: status, body text, and the raw
items of the body's `"value"` key. -/
structure DetailsResult where
  status : Nat
  text : String
  items : List Json

/-- Outcome of the list endpoint.  `ok items detailsCalled` records whether
the details GET was issued; `upstreamError` relays a non-200 upstream
response; `crash` is an uncaught transform exception. -/
inductive ListResult where
  | upstreamError (e : HTTPError)
  | crash
  | ok (items : List GatewayWorkItem) (detailsCalled : Bool)

/-- A Python list comprehension whose element expression may raise:
`some` of the mapped list when every element succeeds, `none` as soon as one
element raises. -/
def mapOption {α β : Type} (f : α → Option β) : List α → Option (List β)
  | [] => some []
  | a :: rest =>
    match f a with
    | none => none
    | some b =>
      match mapOption f rest with
      | none => none
      | some bs => some (b :: bs)

/-- main.py `list_work_items` after configuration resolution: POST the WIQL
query capped at `$top=limit`, slice the returned id list with
`work_item_ids[offset : offset + limit]`, and only when the slice is
non-empty GET the details (modelled as an oracle from the requested ids) and
transform each raw item; an empty slice returns the empty collection with no
details call. -/
def list_work_items (limit offset : Nat) (wiqlResp : WiqlResult)
    (details : List Nat → DetailsResult) : ListResult :=
  if wiqlResp.status ≠ 200 then
    .upstreamError ⟨wiqlResp.status, wiqlResp.text⟩
  else
    let work_item_ids := (wiqlResp.workItemIds.drop offset).take limit
    if work_item_ids = [] then
      .ok [] false
    else
      let d := details work_item_ids
      if d.status ≠ 200 then
        .upstreamError ⟨d.status, d.text⟩
      else
        match mapOption transform_work_item d.items with
        | some transformed => .ok transformed true
        | none => .crash

/-- main.py line 208 inside `list_work_items`: the Authorization header of
every outbound call is computed by `get_auth_headers(x_pat)` alone — the
resolved user configuration, although in scope, is not consulted. -/
def list_auth_header (user_config : UserConfig) (x_pat : Option String) : String :=
  get_auth_headers x_pat

/-- Two configuration states that agree on everything the read payload may
contain and differ at most in the stored access token (the relation used to
state token non-leakage as a two-run property). -/
def tokenEquiv : Option UserConfig → Option UserConfig → Prop
  | none, none => True
  | some a, some b =>
    a.azure_devops_org = b.azure_devops_org ∧
    a.azure_devops_project = b.azure_devops_project ∧
    a.api_version = b.api_version
  | _, _ => False

/-! ## Helper lemmas -/

theorem mapOption_length {α β : Type} (f : α → Option β) :
    ∀ (l : List α) (r : List β), mapOption f l = some r → r.length = l.length
  | [], r, h => by
    simp only [mapOption] at h
    cases h
    rfl
  | a :: rest, r, h => by
    simp only [mapOption] at h
    cases hfa : f a with
    | none => rw [hfa] at h; cases h
    | some b =>
      rw [hfa] at h
      cases hrest : mapOption f rest with
      | none => rw [hrest] at h; cases h
      | some bs =>
        rw [hrest] at h
        cases h
        simp [mapOption_length f rest bs hrest]

/-! ## Claim theorems -/

/-- C8: `get_config` on a missing record creates and persists the record
populated from the system-wide defaults before returning, and is idempotent
afterwards: every later call on the same account returns the same values
without mutating the stored record. -/
theorem get_config_default_then_idempotent :
    get_config none = (configOut defaultUserConfig, defaultUserConfig) ∧
    (∀ c : UserConfig, get_config (some c) = (configOut c, c)) ∧
    get_config (some (get_config none).2) = get_config none :=
  ⟨rfl, fun _ => rfl, rfl⟩

/-- C3: `update_config` is lenient on update — with an existing record only
the non-null fields of the partial payload are applied and every other stored
field is unchanged — and strict on create: with no record, the call succeeds
exactly when all four fields are non-null, and otherwise fails with the
`ValidationError` detail, creating no record. -/
theorem update_config_lenient_strict (c : UserConfig) (u : ConfigUpdate) :
    (∃ c', update_config (some c) u = (.ok (configOut c'), some c') ∧
      (u.azure_devops_org = none → c'.azure_devops_org = c.azure_devops_org) ∧
      (∀ v, u.azure_devops_org = some v → c'.azure_devops_org = v) ∧
      (u.azure_devops_project = none →
        c'.azure_devops_project = c.azure_devops_project) ∧
      (∀ v, u.azure_devops_project = some v → c'.azure_devops_project = v) ∧
      (u.azure_devops_pat = none → c'.azure_devops_pat = c.azure_devops_pat) ∧
      (∀ v, u.azure_devops_pat = some v → c'.azure_devops_pat = v) ∧
      (u.api_version = none → c'.api_version = c.api_version) ∧
      (∀ v, u.api_version = some v → c'.api_version = v)) ∧
    ((u.azure_devops_org = none ∨ u.azure_devops_project = none ∨
      u.azure_devops_pat = none ∨ u.api_version = none) →
      update_config none u =
        (.error ⟨400, "All required fields must be provided to create a new configuration."⟩,
         none)) ∧
    (∀ o pr t v, u = ⟨some o, some pr, some t, some v⟩ →
      update_config none u =
        (.ok (configOut ⟨o, pr, t, v⟩), some ⟨o, pr, t, v⟩)) := by
  refine ⟨⟨_, rfl, ?_, ?_, ?_, ?_, ?_, ?_, ?_, ?_⟩, ?_, ?_⟩
  · intro h; rw [h]; rfl
  · intro v h; rw [h]; rfl
  · intro h; rw [h]; rfl
  · intro v h; rw [h]; rfl
  · intro h; rw [h]; rfl
  · intro v h; rw [h]; rfl
  · intro h; rw [h]; rfl
  · intro v h; rw [h]; rfl
  · intro hmiss
    obtain ⟨o, pr, t, v⟩ := u
    rcases o with _ | o <;> rcases pr with _ | pr <;>
      rcases t with _ | t <;> rcases v with _ | v <;>
      simp_all [update_config]
  · intro o pr t v h
    subst h
    rfl

/-- C3 witness: creating with a payload missing the org, project and token
fields fails with the `ValidationError` and leaves no record. -/
theorem update_config_lenient_strict_witness :
    update_config none ⟨none, none, none, some "8.0"⟩ =
      (.error ⟨400, "All required fields must be provided to create a new configuration."⟩,
       none) :=
  (update_config_lenient_strict defaultUserConfig
    ⟨none, none, none, some "8.0"⟩).2.1 (Or.inl rfl)

/-- C5: the stored access token never appears in a configuration read
payload: the payload of `get_config` is exactly the org/project/api_version
projection, and two runs of `get_config` or `update_config` whose states
differ only in the stored token produce identical payloads. -/
theorem config_read_token_noninterference (s₁ s₂ : Option UserConfig)
    (h : tokenEquiv s₁ s₂) :
    (get_config s₁).1 = (get_config s₂).1 ∧
    (∀ c : UserConfig, (get_config (some c)).1 =
      { azure_devops_org := c.azure_devops_org
        azure_devops_project := c.azure_devops_project
        api_version := c.api_version }) ∧
    ∀ u : ConfigUpdate, (update_config s₁ u).1 = (update_config s₂ u).1 := by
  rcases s₁ with _ | a <;> rcases s₂ with _ | b
  · exact ⟨rfl, fun _ => rfl, fun _ => rfl⟩
  · exact h.elim
  · exact h.elim
  · obtain ⟨h1, h2, h3⟩ := h
    refine ⟨?_, fun _ => rfl, fun u => ?_⟩
    · simp [get_config, configOut, h1, h2, h3]
    · simp [update_config, configOut, h1, h2, h3]

/-- C5 witness: two stored records that differ only in the token give the
same `get_config` payload. -/
theorem config_read_token_noninterference_witness :
    (get_config (some ⟨"org", "proj", "token-A", "7.1"⟩)).1 =
      (get_config (some ⟨"org", "proj", "token-B", "7.1"⟩)).1 :=
  (config_read_token_noninterference (some ⟨"org", "proj", "token-A", "7.1"⟩)
    (some ⟨"org", "proj", "token-B", "7.1"⟩) ⟨rfl, rfl, rfl⟩).1

/-- C10: in the merge-update path an empty-string title or description is
treated exactly as an omitted field — field presence is decided by Python
truthiness — so no patch operation is emitted for it, and an update
supplying only empty strings behaves identically to one supplying no fields
at all. -/
theorem empty_string_treated_as_omitted
    (fields : WorkItemFields) (g : GetWorkItemResponse) (p : UpstreamResponse)
    (t d : Option String) :
    build_patch_payload fields (some "") d = build_patch_payload fields none d ∧
    build_patch_payload fields t (some "") = build_patch_payload fields t none ∧
    update_work_item g p (some "") (some "") = update_work_item g p none none :=
  ⟨rfl, rfl, rfl⟩

/-- C6 (amended): the merge-update performs the live existence-check GET
before composing any patch, and a non-200 GET aborts immediately — no PATCH
is sent — surfacing the upstream status code verbatim together with the
fixed detail string (not the upstream body). -/
theorem update_precheck_aborts (g : GetWorkItemResponse)
    (p : UpstreamResponse) (title description : Option String)
    (h : g.status ≠ 200) :
    update_work_item g p title description =
      (.error ⟨g.status, "Work item not found or unavailable"⟩, none) := by
  unfold update_work_item
  rw [if_pos h]

/-- C6 witness: a 503 existence check aborts with status 503, the fixed
detail, and no PATCH sent. -/
theorem update_precheck_aborts_witness :
    update_work_item ⟨503, "gateway busy", []⟩ ⟨200, "ok"⟩ (some "T") none =
      (.error ⟨503, "Work item not found or unavailable"⟩, none) :=
  update_precheck_aborts ⟨503, "gateway busy", []⟩ ⟨200, "ok"⟩ (some "T") none
    (by decide)

/-- C6 counterexample: the failure of a non-200 existence check does not
carry the upstream response body — the detail is the fixed string
`"Work item not found or unavailable"`, which differs from the upstream
body at this input. -/
theorem update_precheck_not_verbatim_body :
    (update_work_item ⟨404, "upstream error body", []⟩ ⟨200, "ok"⟩
        none none).1 =
      .error ⟨404, "Work item not found or unavailable"⟩ ∧
    "Work item not found or unavailable" ≠ "upstream error body" :=
  ⟨rfl, by decide⟩

/-- C1: the claimed behaviour — the correct bearer token resolves to its
account and wrong/unknown tokens yield one uniform `AuthenticationFailure`
— is unreachable in the code: crud.py references a `pat_fingerprint`
attribute that models.py never maps, so every `get_user_by_pat` call raises
`AttributeError` while building the query filter, the exception escapes
`get_api_key` as a crash (an HTTP 500, not the uniform 401), and every
registration via `create_user` raises `TypeError` from the constructor
keyword — on every input, for every choice of the opaque hash, fingerprint
and verification capabilities. -/
theorem resolve_user_crashes
    (hash fingerprint : String → String) (verify : String → String → Bool)
    (db : List UserModel) (pat : String) (id : Nat)
    (username full_name password : String) :
    get_user_by_pat fingerprint verify db pat =
      .error (.attributeError
        "type object UserModel has no attribute pat_fingerprint") ∧
    get_api_key fingerprint verify db pat =
      .error (.attributeError
        "type object UserModel has no attribute pat_fingerprint") ∧
    create_user hash fingerprint id username full_name password =
      .error (.typeError
        "pat_fingerprint is an invalid keyword argument for UserModel") ∧
    (∀ u : UserModel, get_api_key fingerprint verify db pat ≠ .ok (.ok u)) ∧
    get_api_key fingerprint verify db pat ≠
      .ok (.error ⟨401, "Invalid API key"⟩) := by
  have h2 : get_api_key fingerprint verify db pat =
      .error (.attributeError
        "type object UserModel has no attribute pat_fingerprint") := rfl
  refine ⟨rfl, h2, rfl, ?_, ?_⟩
  · intro u h
    rw [h2] at h
    exact Except.noConfusion h
  · intro h
    rw [h2] at h
    exact Except.noConfusion h

/-- C2: when the current Tags string already holds an entry equal to
`enhanced` case-insensitively, the merge-update emits zero tag operations;
if in addition no (truthy) title and no description change is requested the
whole operation list is empty and the operation fails with the
`400 "No fields provided for update."` error, sending no PATCH — so
re-running the merge against an already-tagged item never re-adds the tag. -/
theorem merge_update_tag_idempotent
    (g : GetWorkItemResponse) (p : UpstreamResponse)
    (title description : Option String)
    (henh : ∃ tg ∈ parse_tags ((g.fields.lookup "System.Tags").getD ""),
      pyLower tg = "enhanced") :
    (build_patch_payload g.fields title description).filter
      (fun op => op.path == "/fields/System.Tags") = [] ∧
    (pyTruthy title = false → pyTruthy description = false → g.status = 200 →
      update_work_item g p title description =
        (.error ⟨400, "No fields provided for update."⟩, none)) := by
  obtain ⟨tg, htg, hlow⟩ := henh
  have hmem : "enhanced" ∈
      (parse_tags ((g.fields.lookup "System.Tags").getD "")).map pyLower :=
    List.mem_map.mpr ⟨tg, htg, hlow⟩
  constructor
  · simp only [build_patch_payload]
    rw [if_pos hmem]
    cases ht : pyTruthy title <;> cases hd : pyTruthy description <;>
      simp [ht, hd]
  · intro ht hd hstat
    have hempty : build_patch_payload g.fields title description = [] := by
      simp only [build_patch_payload]
      rw [if_pos hmem]
      simp [ht, hd]
    unfold update_work_item
    rw [hstat]
    simp [hempty]

/-- C2 witness: an item already tagged `"foo; enhanced"`, merged with no
title and no description change, yields zero tag operations and the
`ValidationError`. -/
theorem merge_update_tag_idempotent_witness :
    (build_patch_payload [("System.Tags", "foo; enhanced")] none none).filter
      (fun op => op.path == "/fields/System.Tags") = [] ∧
    update_work_item ⟨200, "ok", [("System.Tags", "foo; enhanced")]⟩
        ⟨200, "ok"⟩ none none =
      (.error ⟨400, "No fields provided for update."⟩, none) := by
  have h := merge_update_tag_idempotent
    ⟨200, "ok", [("System.Tags", "foo; enhanced")]⟩ ⟨200, "ok"⟩ none none
    ⟨"enhanced", by decide, by decide⟩
  exact ⟨h.1, h.2 rfl rfl rfl⟩

/-- C4: with `limit ≥ 1`, `offset ≥ 0`, upstream honouring the `$top=limit`
cap of the WIQL request (at most `limit` ids returned) and the details call
returning at most one item per requested id, the local slice
`ids[offset : offset + limit]` holds at most `limit - offset` ids and never
more than were returned upstream; an empty post-slice id list short-circuits
to the empty collection with no details call; and any returned collection
holds at most `limit - offset` items. -/
theorem list_pagination_bounds (limit offset : Nat) (wiqlResp : WiqlResult)
    (details : List Nat → DetailsResult)
    (hlim : 1 ≤ limit)
    (htop : wiqlResp.workItemIds.length ≤ limit)
    (hdet : ∀ req, ((details req).items).length ≤ req.length) :
    ((wiqlResp.workItemIds.drop offset).take limit).length ≤ limit - offset ∧
    ((wiqlResp.workItemIds.drop offset).take limit).length ≤
      wiqlResp.workItemIds.length ∧
    (wiqlResp.status = 200 →
      (wiqlResp.workItemIds.drop offset).take limit = [] →
      list_work_items limit offset wiqlResp details = .ok [] false) ∧
    (∀ ts b, list_work_items limit offset wiqlResp details = .ok ts b →
      ts.length ≤ limit - offset) := by
  have hslice : ((wiqlResp.workItemIds.drop offset).take limit).length ≤
      limit - offset := by
    rw [List.length_take, List.length_drop]
    exact le_trans (min_le_right _ _) (Nat.sub_le_sub_right htop offset)
  have hslice2 : ((wiqlResp.workItemIds.drop offset).take limit).length ≤
      wiqlResp.workItemIds.length := by
    rw [List.length_take, List.length_drop]
    exact le_trans (min_le_right _ _) (Nat.sub_le _ _)
  refine ⟨hslice, hslice2, ?_, ?_⟩
  · intro hstat hempty
    unfold list_work_items
    rw [hstat]
    simp [hempty]
  · intro ts b hrun
    unfold list_work_items at hrun
    by_cases hstat : wiqlResp.status ≠ 200
    · rw [if_pos hstat] at hrun
      cases hrun
    · rw [if_neg hstat] at hrun
      by_cases hempty : (wiqlResp.workItemIds.drop offset).take limit = []
      · rw [if_pos hempty] at hrun
        cases hrun
        simp
      · rw [if_neg hempty] at hrun
        by_cases hdstat :
            (details ((wiqlResp.workItemIds.drop offset).take limit)).status ≠ 200
        · rw [if_pos hdstat] at hrun
          cases hrun
        · rw [if_neg hdstat] at hrun
          cases hmap : mapOption transform_work_item
              (details ((wiqlResp.workItemIds.drop offset).take limit)).items with
          | none => rw [hmap] at hrun; cases hrun
          | some transformed =>
            rw [hmap] at hrun
            cases hrun
            calc ts.length
                = ((details ((wiqlResp.workItemIds.drop offset).take limit)).items).length :=
                  mapOption_length transform_work_item _ ts hmap
              _ ≤ ((wiqlResp.workItemIds.drop offset).take limit).length :=
                  hdet _
              _ ≤ limit - offset := hslice

/-- C4 witness: three ids returned upstream under `$top=3`, `offset = 1` —
the slice holds at most `3 - 1 = 2` ids and the run returns at most two
items. -/
theorem list_pagination_bounds_witness :
    ((([10, 20, 30] : List Nat).drop 1).take 3).length ≤ 3 - 1 := by
  have h := list_pagination_bounds 3 1 ⟨200, "", [10, 20, 30]⟩
    (fun _ => ⟨200, "", []⟩) (by decide) (by decide)
    (fun req => Nat.zero_le req.length)
  exact h.1

/-- C7 (amended): every outbound call carries an Authorization header of the
form `"Basic "` followed by the base64 encoding of `":" + token` (empty
username, leading colon), where `token` is the caller-overriding PAT header
when a truthy one is presented and otherwise the system-wide default token —
not the token of the caller's resolved configuration. -/
theorem auth_header_basic_form (cfg : UserConfig) (x_pat : Option String) :
    (∀ p, x_pat = some p → pyTruthy x_pat = true →
      list_auth_header cfg x_pat = "Basic " ++ b64encode (":" ++ p)) ∧
    (pyTruthy x_pat = false →
      list_auth_header cfg x_pat =
        "Basic " ++ b64encode (":" ++ AZURE_DEVOPS_PAT)) := by
  constructor
  · intro p hp ht
    subst hp
    have hne : (p == "") = false := by
      simpa [pyTruthy] using ht
    simp [list_auth_header, get_auth_headers, hne]
  · intro hf
    cases x_pat with
    | none => rfl
    | some p =>
      have heq : (p == "") = true := by
        simpa [pyTruthy] using hf
      simp [list_auth_header, get_auth_headers, heq]

/-- C7 witness: a presented PAT header is used verbatim in the Basic
header. -/
theorem auth_header_basic_form_witness :
    list_auth_header defaultUserConfig (some "tok") =
      "Basic " ++ b64encode ":tok" :=
  (auth_header_basic_form defaultUserConfig (some "tok")).1 "tok" rfl (by decide)

/-- C7 counterexample: with no caller-overriding PAT, the header is built
from the system-wide default token, not from the token stored in the
caller's resolved configuration — at this input the two differ. -/
theorem auth_header_ignores_config_token :
    list_auth_header ⟨"org", "proj", "user-secret-pat", "7.1"⟩ none =
      "Basic " ++ b64encode (":" ++ AZURE_DEVOPS_PAT) ∧
    "Basic " ++ b64encode (":" ++ AZURE_DEVOPS_PAT) ≠
      "Basic " ++ b64encode (":" ++ "user-secret-pat") :=
  ⟨rfl, by decide⟩

set_option maxHeartbeats 3200000 in
/-- C9: `transform_work_item` is total on raw work items (every present
nesting level that the code reads through is an object): any missing field
yields a null projection instead of failing, and every level of absence in
the nested assignee structure — the assignee object itself, and through it
the doubly-nested avatar link — degrades to null, so an item with no
assignee normalizes to `assignedTo = {displayName: null, uniqueName: null,
avatarUrl: null}` without error, and an item with no field bag at all
additionally projects null title, description, state and created date. -/
theorem transform_defensive (kvs : List (String × Json))
    (hf : ∀ j, kvs.lookup "fields" = some j → ∃ f, j = Json.obj f)
    (ha : ∀ f j, kvs.lookup "fields" = some (Json.obj f) →
      f.lookup "System.AssignedTo" = some j → ∃ a, j = Json.obj a)
    (hl : ∀ f a j, kvs.lookup "fields" = some (Json.obj f) →
      f.lookup "System.AssignedTo" = some (Json.obj a) →
      a.lookup "_links" = some j → ∃ l, j = Json.obj l)
    (hv : ∀ f a l j, kvs.lookup "fields" = some (Json.obj f) →
      f.lookup "System.AssignedTo" = some (Json.obj a) →
      a.lookup "_links" = some (Json.obj l) →
      l.lookup "avatar" = some j → ∃ w, j = Json.obj w) :
    (∃ out, transform_work_item (Json.obj kvs) = some out) ∧
    (∀ f, kvs.lookup "fields" = some (Json.obj f) →
      f.lookup "System.AssignedTo" = none →
      ∃ out, transform_work_item (Json.obj kvs) = some out ∧
        out.assignedTo.displayName = none ∧
        out.assignedTo.uniqueName = none ∧
        out.assignedTo.avatarUrl = none) ∧
    (kvs.lookup "fields" = none →
      ∃ out, transform_work_item (Json.obj kvs) = some out ∧
        out.title = none ∧ out.description = none ∧ out.state = none ∧
        out.createdDate = none ∧ out.assignedTo.displayName = none ∧
        out.assignedTo.uniqueName = none ∧ out.assignedTo.avatarUrl = none) := by
  refine ⟨?_, ?_, ?_⟩
  · cases hfk : kvs.lookup "fields" with
    | none =>
      refine ⟨{ id := kvs.lookup "id", title := none, description := none,
                state := none, createdDate := none,
                assignedTo := ⟨none, none, none⟩,
                url := kvs.lookup "url" }, ?_⟩
      simp only [transform_work_item, pyDictGetD, pyDictGet, hfk, List.lookup_nil,
        Option.getD_none, Option.getD_some, Option.bind_eq_bind, Option.some_bind]
    | some j =>
      obtain ⟨f, rfl⟩ := hf j hfk
      cases hak : f.lookup "System.AssignedTo" with
      | none =>
        refine ⟨{ id := kvs.lookup "id", title := f.lookup "System.Title",
                  description := f.lookup "System.Description",
                  state := f.lookup "System.State",
                  createdDate := f.lookup "System.CreatedDate",
                  assignedTo := ⟨none, none, none⟩,
                  url := kvs.lookup "url" }, ?_⟩
        simp only [transform_work_item, pyDictGetD, pyDictGet, hfk, hak, List.lookup_nil,
        Option.getD_none, Option.getD_some, Option.bind_eq_bind, Option.some_bind]
      | some j' =>
        obtain ⟨a, rfl⟩ := ha f j' hfk hak
        cases hlk : a.lookup "_links" with
        | none =>
          refine ⟨{ id := kvs.lookup "id", title := f.lookup "System.Title",
                    description := f.lookup "System.Description",
                    state := f.lookup "System.State",
                    createdDate := f.lookup "System.CreatedDate",
                    assignedTo := ⟨a.lookup "displayName",
                                   a.lookup "uniqueName", none⟩,
                    url := kvs.lookup "url" }, ?_⟩
          simp only [transform_work_item, pyDictGetD, pyDictGet, hfk, hak, hlk,
        List.lookup_nil, Option.getD_none, Option.getD_some, Option.bind_eq_bind,
        Option.some_bind]
        | some j'' =>
          obtain ⟨l, rfl⟩ := hl f a j'' hfk hak hlk
          cases hvk : l.lookup "avatar" with
          | none =>
            refine ⟨{ id := kvs.lookup "id", title := f.lookup "System.Title",
                      description := f.lookup "System.Description",
                      state := f.lookup "System.State",
                      createdDate := f.lookup "System.CreatedDate",
                      assignedTo := ⟨a.lookup "displayName",
                                     a.lookup "uniqueName", none⟩,
                      url := kvs.lookup "url" }, ?_⟩
            simp only [transform_work_item, pyDictGetD, pyDictGet, hfk, hak, hlk, hvk,
        List.lookup_nil, Option.getD_none, Option.getD_some, Option.bind_eq_bind,
        Option.some_bind]
          | some j₃ =>
            obtain ⟨w, rfl⟩ := hv f a l j₃ hfk hak hlk hvk
            refine ⟨{ id := kvs.lookup "id", title := f.lookup "System.Title",
                      description := f.lookup "System.Description",
                      state := f.lookup "System.State",
                      createdDate := f.lookup "System.CreatedDate",
                      assignedTo := ⟨a.lookup "displayName",
                                     a.lookup "uniqueName",
                                     w.lookup "href"⟩,
                      url := kvs.lookup "url" }, ?_⟩
            simp only [transform_work_item, pyDictGetD, pyDictGet, hfk, hak, hlk, hvk,
        List.lookup_nil, Option.getD_none, Option.getD_some, Option.bind_eq_bind,
        Option.some_bind]
  · intro f hfk hak
    refine ⟨{ id := kvs.lookup "id", title := f.lookup "System.Title",
              description := f.lookup "System.Description",
              state := f.lookup "System.State",
              createdDate := f.lookup "System.CreatedDate",
              assignedTo := ⟨none, none, none⟩,
              url := kvs.lookup "url" }, ?_, rfl, rfl, rfl⟩
    simp only [transform_work_item, pyDictGetD, pyDictGet, hfk, hak, List.lookup_nil,
        Option.getD_none, Option.getD_some, Option.bind_eq_bind, Option.some_bind]
  · intro hfk
    refine ⟨{ id := kvs.lookup "id", title := none, description := none,
              state := none, createdDate := none,
              assignedTo := ⟨none, none, none⟩,
              url := kvs.lookup "url" }, ?_, rfl, rfl, rfl, rfl, rfl, rfl, rfl⟩
    simp only [transform_work_item, pyDictGetD, pyDictGet, hfk, List.lookup_nil,
        Option.getD_none, Option.getD_some, Option.bind_eq_bind, Option.some_bind]

/-- C9 witness: a concrete raw item whose field bag has a title but no
assignee normalizes successfully with an all-null `assignedTo`. -/
theorem transform_defensive_witness :
    ∃ out, transform_work_item
        (Json.obj [("id", Json.num 7),
                   ("fields", Json.obj [("System.Title", Json.str "T")])]) =
        some out ∧
      out.assignedTo.displayName = none ∧
      out.assignedTo.uniqueName = none ∧
      out.assignedTo.avatarUrl = none := by
  have h := transform_defensive
    [("id", Json.num 7), ("fields", Json.obj [("System.Title", Json.str "T")])]
    (fun j hj =>
      ⟨[("System.Title", Json.str "T")],
        (Option.some.inj
          (show some (Json.obj [("System.Title", Json.str "T")]) = some j
            from hj)).symm⟩)
    (fun f j hf' hj => by
      have hfe : [("System.Title", Json.str "T")] = f := by
        injection Option.some.inj
          (show some (Json.obj [("System.Title", Json.str "T")]) =
            some (Json.obj f) from hf')
      subst hfe
      exact Option.noConfusion (show (none : Option Json) = some j from hj))
    (fun f a j hf' ha' _ => by
      have hfe : [("System.Title", Json.str "T")] = f := by
        injection Option.some.inj
          (show some (Json.obj [("System.Title", Json.str "T")]) =
            some (Json.obj f) from hf')
      subst hfe
      exact Option.noConfusion
        (show (none : Option Json) = some (Json.obj a) from ha'))
    (fun f a l j hf' ha' _ _ => by
      have hfe : [("System.Title", Json.str "T")] = f := by
        injection Option.some.inj
          (show some (Json.obj [("System.Title", Json.str "T")]) =
            some (Json.obj f) from hf')
      subst hfe
      exact Option.noConfusion
        (show (none : Option Json) = some (Json.obj a) from ha'))
  exact h.2.1 [("System.Title", Json.str "T")] rfl rfl

end AdoInterface
